import Mathlib

/-!
Verification development for the `shaper` pip-package wrapper
(`shaper_pkg/install.py`, `shaper_pkg/cli.py`, `shaper_pkg/uninstall.py`).

The Python code is shallowly embedded: the pure string manipulation
(platform normalization, manifest parsing, `str.strip`/`str.split`) is
translated directly; the effectful installer and launcher are embedded as
functions over an explicit `World` (environment: platform strings,
bundled manifest, release metadata, download results, a SHA-256 oracle)
and an explicit file-system record for the three files the package
touches (the binary, the version marker, the temporary download).
Each run also produces a chronological trace of events so that
ordering/"no network call" properties can be stated.
-/

/-- Python whitespace predicate used by `str.strip()` and `str.split()`:
space, tab, newline, carriage return, vertical tab, form feed. -/
def pyIsSpace (c : Char) : Bool :=
  c.toNat == 32 || c.toNat == 9 || c.toNat == 10 ||
  c.toNat == 13 || c.toNat == 11 || c.toNat == 12

/-- Python `str.strip()` on a character list: remove the maximal run of
whitespace at both ends (right strip, then left strip). -/
def pyStripChars (s : List Char) : List Char :=
  ((s.reverse.dropWhile pyIsSpace).reverse).dropWhile pyIsSpace

/-- Python `str.strip()` on strings. -/
def pyStrip (s : String) : String :=
  ⟨pyStripChars s.data⟩

/-- Helper for `pySplit`: walk the characters, accumulating the current
(reversed) token, emitting it at each whitespace run. -/
def pySplitAux : List Char → List Char → List (List Char)
  | [], cur => if cur = [] then [] else [cur.reverse]
  | c :: rest, cur =>
    if pyIsSpace c then
      if cur = [] then pySplitAux rest [] else cur.reverse :: pySplitAux rest []
    else
      pySplitAux rest (c :: cur)

/-- Python `str.split()` with no separator: split on runs of whitespace,
discarding empty tokens. -/
def pySplit (s : String) : List String :=
  (pySplitAux s.data []).map fun l => ⟨l⟩

/-- `PLATFORM_MAP` from `install.py`: map of (system, machine) pairs to
GitHub release asset names. -/
def PLATFORM_MAP : List ((String × String) × String) :=
  [ (("linux", "x86_64"), "shaper-linux-amd64"),
    (("linux", "aarch64"), "shaper-linux-arm64"),
    (("linux", "arm64"), "shaper-linux-arm64"),
    (("darwin", "x86_64"), "shaper-darwin-amd64"),
    (("darwin", "arm64"), "shaper-darwin-arm64") ]

/-- `PLATFORM_MAP.get(key)`: first (only) entry for the key, if any. -/
def lookupPlatform (key : String × String) : Option String :=
  (PLATFORM_MAP.find? fun e => e.1 == key).map fun e => e.2

/-- Machine-name normalization from `install.py` lines 136-140:
`amd64` becomes `x86_64`; `arm64`/`aarch64` become `aarch64` on linux
and `arm64` on any other system; anything else is unchanged. -/
def normalizeMachine (system machine : String) : String :=
  if machine = "amd64" then "x86_64"
  else if machine = "arm64" ∨ machine = "aarch64" then
    (if system = "linux" then "aarch64" else "arm64")
  else machine

/-- Platform resolution from `install.py` lines 132-153: normalize the
machine name, look the pair up in `PLATFORM_MAP`, and if that fails try
the two alternative mappings before giving up. -/
def resolveAsset (system machine : String) : Option String :=
  match lookupPlatform (system, normalizeMachine system machine) with
  | some assetName => some assetName
  | none =>
    if system = "linux" ∧ normalizeMachine system machine = "arm64" then
      lookupPlatform ("linux", "aarch64")
    else if system = "darwin" ∧ normalizeMachine system machine = "aarch64" then
      lookupPlatform ("darwin", "arm64")
    else none

/-- Helper for `splitLines`: split a character list at every newline. -/
def splitLinesAux : List Char → List Char → List (List Char)
  | [], cur => [cur.reverse]
  | c :: rest, cur =>
    if c = '\n' then cur.reverse :: splitLinesAux rest []
    else splitLinesAux rest (c :: cur)

/-- Split a file's text into its lines (Python's per-line file
iteration, with the line terminators removed; each line is stripped
afterwards anyway). -/
def splitLines (s : String) : List String :=
  (splitLinesAux s.data []).map fun l => ⟨l⟩

/-- `load_checksums` from `install.py` lines 102-119, applied to the text
of the `SHA256SUMS` file: for each line, strip it; skip it when blank;
split it into whitespace-separated tokens; when there are at least two
tokens, record `checksums[filename] = checksum` (dict assignment, so a
later line with the same filename overwrites an earlier one).  The
resulting dict is modelled as its lookup function. -/
def load_checksums (text : String) : String → Option String :=
  (splitLines text).foldl
    (fun m line =>
      let stripped := pyStrip line
      if stripped ≠ "" then
        match pySplit stripped with
        | checksum :: filename :: _ => fun k => if k = filename then some checksum else m k
        | _ => m
      else m)
    (fun _ => none)

/-- The manifest entry contributed by a single line for a given key:
its first token, when the line has at least two tokens and its second
token is the key. -/
def entryOf (line key : String) : Option String :=
  match pySplit (pyStrip line) with
  | checksum :: filename :: _ => if filename = key then some checksum else none
  | _ => none

/-- The entry of the last line contributing the given key, if any. -/
def lastEntry : List String → String → Option String
  | [], _ => none
  | line :: rest, key =>
    match lastEntry rest key with
    | some c => some c
    | none => entryOf line key

/-- `verify_checksum` from `install.py` lines 91-99: recompute the
digest of the downloaded file (`calculate_sha256`, abstracted as the
environment's `sha` oracle applied to the file content) and compare it
to the expected digest with plain string inequality, raising on
mismatch with a message carrying both digests. -/
def verify_checksum (sha : String → String) (content expected_checksum : String) :
    Except String Unit :=
  if sha content ≠ expected_checksum then
    Except.error ("Checksum verification failed for .shaper.tmp\nExpected: " ++
      expected_checksum ++ "\nActual:   " ++ sha content)
  else Except.ok ()

/-- A regular file: its content plus whether it is executable. -/
structure BinFile where
  content : String
  executable : Bool
deriving DecidableEq

/-- The files the package manipulates inside its `bin` directory:
the binary `bin/shaper`, the version marker `bin/VERSION`, and the
temporary download `bin/.shaper.tmp` (`none` = the file is absent). -/
structure FS where
  binary : Option BinFile
  marker : Option String
  tmp : Option String
deriving DecidableEq

/-- Observable events of an install/launch run, in chronological order.
`fetchRelease` and `download` are the two network calls. -/
inductive Ev
  | deleteMarker
  | fetchRelease
  | download
  | verifyOk
  | promote
  | chmod
  | writeMarker
  | deleteBinary
  | deleteTmp
  | installStart
  | execBinary
deriving DecidableEq

/-- Release metadata returned by the GitHub API: the asset list, each
asset a `(name, browser_download_url)` pair. -/
structure Release where
  assets : List (String × String)
deriving DecidableEq

/-- The environment an install/launch run executes in: the platform
strings (as returned lowercased by `platform.system()`/`machine()`),
the bundled `SHA256SUMS` text (`none` = file missing), the package
version (`get_version()`), the release metadata the GitHub API would
return (`none` = request fails / tag missing), the bytes a download of
each URL would produce (`none` = download fails), the SHA-256 oracle,
and the initial file-system state. -/
structure World where
  system : String
  machine : String
  manifest : Option String
  version : String
  release : Option Release
  download : String → Option String
  sha256 : String → String
  fs : FS

/-- Result of a run: the event trace (each event paired with the
file-system state just after it), the final file-system state, whether
the run succeeded, and the error message otherwise. -/
structure RunResult where
  trace : List (Ev × FS)
  fs : FS
  ok : Bool
  err : Option String

/-- The state after `VERSION_FILE.unlink()` (a no-op when absent). -/
def markerCleared (fs : FS) : FS :=
  { fs with marker := none }

/-- The trace of the marker-removal step at the top of `main`
(`install.py` lines 128-130): one `deleteMarker` event when the marker
file existed, nothing otherwise. -/
def markerDeleteTrace (fs : FS) : List (Ev × FS) :=
  if fs.marker.isSome then [(Ev.deleteMarker, markerCleared fs)] else []

/-- The `except` handler of `main` (`install.py` lines 194-202): delete
the file at the binary path if it exists, delete the temporary file if
it exists, and exit with status 1. -/
def exceptClean (msg : String) (tr : List (Ev × FS)) (fs : FS) : RunResult :=
  if fs.binary.isSome then
    if fs.tmp.isSome then
      ⟨tr ++ [(Ev.deleteBinary, { fs with binary := none }),
              (Ev.deleteTmp, { fs with binary := none, tmp := none })],
       { fs with binary := none, tmp := none }, false, some msg⟩
    else
      ⟨tr ++ [(Ev.deleteBinary, { fs with binary := none })],
       { fs with binary := none }, false, some msg⟩
  else if fs.tmp.isSome then
    ⟨tr ++ [(Ev.deleteTmp, { fs with tmp := none })],
     { fs with tmp := none }, false, some msg⟩
  else
    ⟨tr, fs, false, some msg⟩

/-- `main` from `install.py` lines 122-202: delete any stale version
marker, resolve the platform, load the bundled checksum manifest and
look up the asset's expected digest, fetch the release metadata, locate
the asset, download it to the temporary path, verify its digest, rename
it to the binary path, mark it executable, and finally write the
version marker (with a trailing newline).  Any failure falls into
`exceptClean`. -/
def install_main (w : World) : RunResult :=
  match resolveAsset w.system w.machine with
  | none =>
      exceptClean ("Unsupported platform: " ++ w.system ++ "-" ++
          normalizeMachine w.system w.machine)
        (markerDeleteTrace w.fs) (markerCleared w.fs)
  | some asset_name =>
    match w.manifest with
    | none =>
        exceptClean "SHA256SUMS file not found in package"
          (markerDeleteTrace w.fs) (markerCleared w.fs)
    | some manifest_text =>
      match load_checksums manifest_text asset_name with
      | none =>
          exceptClean ("No checksum found for " ++ asset_name ++ " in SHA256SUMS")
            (markerDeleteTrace w.fs) (markerCleared w.fs)
      | some expected_checksum =>
        if expected_checksum = "" then
          exceptClean ("No checksum found for " ++ asset_name ++ " in SHA256SUMS")
            (markerDeleteTrace w.fs) (markerCleared w.fs)
        else
          match w.release with
          | none =>
              exceptClean "Error fetching release"
                (markerDeleteTrace w.fs ++ [(Ev.fetchRelease, markerCleared w.fs)])
                (markerCleared w.fs)
          | some release =>
            match release.assets.find? fun a => a.1 == asset_name with
            | none =>
                exceptClean ("Asset not found for platform " ++ w.system ++ "-" ++
                    normalizeMachine w.system w.machine ++ " in version v" ++ w.version)
                  (markerDeleteTrace w.fs ++ [(Ev.fetchRelease, markerCleared w.fs)])
                  (markerCleared w.fs)
            | some asset =>
              match w.download asset.2 with
              | none =>
                  exceptClean "Error downloading file"
                    (markerDeleteTrace w.fs ++
                      [(Ev.fetchRelease, markerCleared w.fs),
                       (Ev.download, markerCleared w.fs)])
                    (markerCleared w.fs)
              | some content =>
                match verify_checksum w.sha256 content expected_checksum with
                | Except.error msg =>
                    exceptClean msg
                      (markerDeleteTrace w.fs ++
                        [(Ev.fetchRelease, markerCleared w.fs),
                         (Ev.download, { markerCleared w.fs with tmp := some content })])
                      { markerCleared w.fs with tmp := some content }
                | Except.ok _ =>
                    ⟨markerDeleteTrace w.fs ++
                      [(Ev.fetchRelease, markerCleared w.fs),
                       (Ev.download, { markerCleared w.fs with tmp := some content }),
                       (Ev.verifyOk, { markerCleared w.fs with tmp := some content }),
                       (Ev.promote,
                        { markerCleared w.fs with
                            binary := some ⟨content, false⟩, tmp := none }),
                       (Ev.chmod,
                        { markerCleared w.fs with
                            binary := some ⟨content, true⟩, tmp := none }),
                       (Ev.writeMarker,
                        { binary := some ⟨content, true⟩,
                          marker := some (w.version ++ "\n"), tmp := none })],
                     { binary := some ⟨content, true⟩,
                       marker := some (w.version ++ "\n"), tmp := none },
                     true, none⟩

/-- `_read_binary_version` from `cli.py` lines 16-21: the marker file's
content with surrounding whitespace stripped, or `None` when the file
cannot be read. -/
def readBinaryVersion (fs : FS) : Option String :=
  fs.marker.map pyStrip

/-- The `needs_download` condition of `_ensure_binary` (`cli.py`
line 32): the binary file is missing, or the recorded version differs
from the version the wrapper expects. -/
def needs_download (w : World) : Bool :=
  !w.fs.binary.isSome || !(readBinaryVersion w.fs == some w.version)

/-- `main` from `cli.py` lines 39-54 together with `_ensure_binary`:
run the installer when the binary is missing or out of date (exiting
with its error if it fails), then replace the process with the binary. -/
def cli_main (w : World) : RunResult :=
  if needs_download w then
    if (install_main w).ok then
      ⟨(Ev.installStart, w.fs) ::
         (install_main w).trace ++ [(Ev.execBinary, (install_main w).fs)],
       (install_main w).fs, true, none⟩
    else
      ⟨(Ev.installStart, w.fs) :: (install_main w).trace,
       (install_main w).fs, false, (install_main w).err⟩
  else
    ⟨[(Ev.execBinary, w.fs)], w.fs, true, none⟩

/-- Number of network calls recorded in a trace. -/
def netCalls (tr : List (Ev × FS)) : Nat :=
  tr.countP fun p => p.1 == Ev.fetchRelease || p.1 == Ev.download

/-- Number of install cycles recorded in a trace. -/
def installStarts (tr : List (Ev × FS)) : Nat :=
  tr.countP fun p => p.1 == Ev.installStart

/-- Lowercase an ASCII letter; other characters are unchanged.  Used
only to state what "differs only in letter case" means for hex digest
strings. -/
def lowerChar (c : Char) : Char :=
  if 65 ≤ c.toNat ∧ c.toNat ≤ 90 then Char.ofNat (c.toNat + 32) else c

/-- Case-normalize a string character-wise. -/
def lowerStr (s : String) : String :=
  ⟨s.data.map lowerChar⟩

/-- A world in which everything goes right: supported platform, a
manifest entry for the asset, a reachable release carrying the asset,
and a download whose digest matches the manifest. -/
def wSuccess : World :=
  { system := "linux", machine := "x86_64",
    manifest := some "deadbeef shaper-linux-amd64",
    version := "1.4.0",
    release := some ⟨[("shaper-linux-amd64", "https://example.test/shaper")]⟩,
    download := fun _ => some "GOOD-BYTES",
    sha256 := fun _ => "deadbeef",
    fs := { binary := none, marker := some "1.3.0\n", tmp := none } }

/-- A world in which a previously installed binary (version 1.3.0) is
present and the freshly downloaded bytes hash to a value different from
the manifest entry. -/
def wMismatch : World :=
  { system := "linux", machine := "x86_64",
    manifest := some "deadbeef shaper-linux-amd64",
    version := "1.4.0",
    release := some ⟨[("shaper-linux-amd64", "https://example.test/shaper")]⟩,
    download := fun _ => some "CORRUPT-BYTES",
    sha256 := fun c => if c = "GOOD-BYTES" then "deadbeef" else "0badc0de",
    fs := { binary := some ⟨"OLD-BINARY", true⟩, marker := some "1.3.0\n", tmp := none } }

/-- A world on an unsupported platform. -/
def wUnsupported : World :=
  { system := "freebsd", machine := "x86_64",
    manifest := some "deadbeef shaper-linux-amd64",
    version := "1.4.0",
    release := some ⟨[("shaper-linux-amd64", "https://example.test/shaper")]⟩,
    download := fun _ => some "GOOD-BYTES",
    sha256 := fun _ => "deadbeef",
    fs := { binary := none, marker := none, tmp := none } }

/-- A world whose manifest has no entry for the resolved asset. -/
def wNoEntry : World :=
  { system := "linux", machine := "x86_64",
    manifest := some "deadbeef some-other-file",
    version := "1.4.0",
    release := some ⟨[("shaper-linux-amd64", "https://example.test/shaper")]⟩,
    download := fun _ => some "GOOD-BYTES",
    sha256 := fun _ => "deadbeef",
    fs := { binary := none, marker := none, tmp := none } }

/-- A world where the binary is installed and the marker matches the
expected version, so the launcher should exec directly. -/
def wUsable : World :=
  { system := "linux", machine := "x86_64",
    manifest := some "deadbeef shaper-linux-amd64",
    version := "1.4.0",
    release := some ⟨[("shaper-linux-amd64", "https://example.test/shaper")]⟩,
    download := fun _ => some "GOOD-BYTES",
    sha256 := fun _ => "deadbeef",
    fs := { binary := some ⟨"GOOD-BYTES", true⟩, marker := some "1.4.0\n", tmp := none } }

/-- The event trace of a successful install run downloading `content`:
optional stale-marker removal, the two network calls, verification,
promotion (rename), chmod, and finally the marker write. -/
def successTrace (w : World) (content : String) : List (Ev × FS) :=
  markerDeleteTrace w.fs ++
  [(Ev.fetchRelease, markerCleared w.fs),
   (Ev.download, { markerCleared w.fs with tmp := some content }),
   (Ev.verifyOk, { markerCleared w.fs with tmp := some content }),
   (Ev.promote, { markerCleared w.fs with binary := some ⟨content, false⟩, tmp := none }),
   (Ev.chmod, { markerCleared w.fs with binary := some ⟨content, true⟩, tmp := none }),
   (Ev.writeMarker, ⟨some ⟨content, true⟩, some (w.version ++ "\n"), none⟩)]

/-- The `bin` directory as `uninstall.py` sees it: whether the binary
file is in it, and how many other entries it holds. -/
structure BinDir where
  hasBinary : Bool
  others : Nat
deriving DecidableEq

/-- `BINARY_PATH.exists()`. -/
def binaryExists : Option BinDir → Bool
  | none => false
  | some d => d.hasBinary

/-- `BIN_DIR.exists()`. -/
def binDirExists (s : Option BinDir) : Bool :=
  s.isSome

/-- `not any(BIN_DIR.iterdir())`: the directory has no entries (only
queried when it exists). -/
def binDirEmpty : Option BinDir → Bool
  | none => false
  | some d => !d.hasBinary && d.others == 0

/-- `BINARY_PATH.unlink()`: fails when the file is absent. -/
def unlinkBinary : Option BinDir → Except String (Option BinDir)
  | none => Except.error "no such file"
  | some d =>
    if d.hasBinary then Except.ok (some { d with hasBinary := false })
    else Except.error "no such file"

/-- `BIN_DIR.rmdir()`: fails when the directory is absent or non-empty. -/
def rmdirBinDir : Option BinDir → Except String (Option BinDir)
  | none => Except.error "no such directory"
  | some d =>
    if !d.hasBinary && d.others == 0 then Except.ok none
    else Except.error "directory not empty"

/-- The module-level body of `uninstall.py` lines 12-19: delete the
binary when it exists, then remove the `bin` directory when it exists
and is empty; any raised error aborts with status 1. -/
def uninstall (s : Option BinDir) : Except String (Option BinDir) :=
  match (if binaryExists s then unlinkBinary s else Except.ok s) with
  | Except.error e => Except.error e
  | Except.ok s1 =>
    if binDirExists s1 && binDirEmpty s1 then rmdirBinDir s1 else Except.ok s1

example : (install_main wSuccess).ok = true := by decide
example : (install_main wSuccess).fs.marker = some "1.4.0\n" := by decide
example : (install_main wSuccess).fs.binary = some ⟨"GOOD-BYTES", true⟩ := by decide
example : (install_main wMismatch).ok = false := by decide
example : (install_main wMismatch).fs.binary = none := by decide
example : (install_main wMismatch).fs.tmp = none := by decide
example : (install_main wUnsupported).ok = false := by decide
example : netCalls (install_main wUnsupported).trace = 0 := by decide
example : netCalls (install_main wNoEntry).trace = 0 := by decide
example : (cli_main wUsable).trace = [(Ev.execBinary, wUsable.fs)] := by decide
example : installStarts (cli_main wSuccess).trace = 1 := by decide

example : pyStrip "  1.4.0\n" = "1.4.0" := by decide
example : pySplit " a  bc\td " = ["a", "bc", "d"] := by decide
example : resolveAsset "linux" "amd64" = some "shaper-linux-amd64" := by decide
example : resolveAsset "darwin" "aarch64" = some "shaper-darwin-arm64" := by decide
example : resolveAsset "freebsd" "x86_64" = none := by decide
example : load_checksums "abc shaper-linux-amd64\n\nx\n" "shaper-linux-amd64" = some "abc" := by
  decide
example : load_checksums "a f\nb f" "f" = some "b" := by decide

/-! ## Helper lemmas -/

theorem verify_checksum_eq_ok (sha : String → String) (c e : String) :
    verify_checksum sha c e = Except.ok () ↔ sha c = e := by
  unfold verify_checksum
  split <;> simp_all

theorem exceptClean_ok (msg : String) (tr : List (Ev × FS)) (fs : FS) :
    (exceptClean msg tr fs).ok = false := by
  unfold exceptClean
  split
  · split <;> rfl
  · split <;> rfl

theorem exceptClean_err (msg : String) (tr : List (Ev × FS)) (fs : FS) :
    (exceptClean msg tr fs).err = some msg := by
  unfold exceptClean
  split
  · split <;> rfl
  · split <;> rfl

theorem exceptClean_fs (msg : String) (tr : List (Ev × FS)) (fs : FS) :
    (exceptClean msg tr fs).fs = ⟨none, fs.marker, none⟩ := by
  unfold exceptClean
  rcases fs with ⟨b, m, t⟩
  cases b <;> cases t <;> simp

theorem exceptClean_trace_mem (msg : String) (tr : List (Ev × FS)) (fs : FS)
    (p : Ev × FS) (hp : p ∈ (exceptClean msg tr fs).trace) :
    p ∈ tr ∨ ((p.1 = Ev.deleteBinary ∨ p.1 = Ev.deleteTmp) ∧ p.2.marker = fs.marker) := by
  unfold exceptClean at hp
  rcases fs with ⟨b, m, t⟩
  cases b <;> cases t <;> simp at hp
  · exact Or.inl hp
  · rcases hp with hp | rfl
    · exact Or.inl hp
    · exact Or.inr ⟨Or.inr rfl, rfl⟩
  · rcases hp with hp | rfl
    · exact Or.inl hp
    · exact Or.inr ⟨Or.inl rfl, rfl⟩
  · rcases hp with hp | rfl | rfl
    · exact Or.inl hp
    · exact Or.inr ⟨Or.inl rfl, rfl⟩
    · exact Or.inr ⟨Or.inr rfl, rfl⟩

theorem exceptClean_netCalls (msg : String) (tr : List (Ev × FS)) (fs : FS) :
    netCalls (exceptClean msg tr fs).trace = netCalls tr := by
  unfold exceptClean netCalls
  rcases fs with ⟨b, m, t⟩
  cases b <;> cases t <;> simp [List.countP_append, List.countP_cons] <;> decide

theorem exceptClean_installStarts (msg : String) (tr : List (Ev × FS)) (fs : FS) :
    installStarts (exceptClean msg tr fs).trace = installStarts tr := by
  unfold exceptClean installStarts
  rcases fs with ⟨b, m, t⟩
  cases b <;> cases t <;> simp [List.countP_append, List.countP_cons] <;> decide

theorem exceptClean_trace_head (msg : String) (tr : List (Ev × FS)) (fs : FS)
    (htr : tr ≠ []) :
    (exceptClean msg tr fs).trace.head? = tr.head? := by
  unfold exceptClean
  rcases tr with _ | ⟨a, tr⟩
  · exact absurd rfl htr
  · rcases fs with ⟨b, m, t⟩
    cases b <;> cases t <;> simp

theorem markerDeleteTrace_of_isSome (fs : FS) (h : fs.marker.isSome = true) :
    markerDeleteTrace fs = [(Ev.deleteMarker, markerCleared fs)] := by
  unfold markerDeleteTrace
  simp [h]

theorem mem_markerDeleteTrace (fs : FS) (p : Ev × FS)
    (hp : p ∈ markerDeleteTrace fs) : p = (Ev.deleteMarker, markerCleared fs) := by
  unfold markerDeleteTrace at hp
  split at hp <;> simp_all

theorem markerDeleteTrace_netCalls (fs : FS) : netCalls (markerDeleteTrace fs) = 0 := by
  unfold markerDeleteTrace netCalls
  split <;> simp <;> decide

theorem markerDeleteTrace_installStarts (fs : FS) :
    installStarts (markerDeleteTrace fs) = 0 := by
  unfold markerDeleteTrace installStarts
  split <;> simp <;> decide

theorem netCalls_append (a b : List (Ev × FS)) :
    netCalls (a ++ b) = netCalls a + netCalls b :=
  List.countP_append _ _ _

theorem installStarts_append (a b : List (Ev × FS)) :
    installStarts (a ++ b) = installStarts a + installStarts b :=
  List.countP_append _ _ _

theorem install_ok_data (w : World) :
    (install_main w).ok = true →
    ∃ content asset_name manifest_text,
      resolveAsset w.system w.machine = some asset_name ∧
      w.manifest = some manifest_text ∧
      load_checksums manifest_text asset_name = some (w.sha256 content) ∧
      (install_main w).fs =
        ⟨some ⟨content, true⟩, some (w.version ++ "\n"), none⟩ := by
  unfold install_main
  repeat' split
  all_goals simp only [exceptClean_ok, Bool.false_eq_true, false_implies]
  intro hok
  rename_i x6 an hres x5 mt hman x4 exp hload hne x3 rel hrel x2 asset hfind x1
    content hdl xe u hv
  refine ⟨content, an, mt, hres, hman, ?_, rfl⟩
  have hsha := (verify_checksum_eq_ok _ _ _).mp (by cases u; exact hv)
  rw [hsha]
  exact hload

theorem cleanShape (w : World) (msg : String) (fs2 : FS) (rest : List (Ev × FS))
    (hfs2 : fs2.marker = none)
    (hrest : ∀ p ∈ rest,
       p.1 ∈ [Ev.deleteMarker, Ev.fetchRelease, Ev.download, Ev.deleteBinary, Ev.deleteTmp] ∧
       p.2.marker = none) :
    (w.fs.marker.isSome = true →
       (exceptClean msg (markerDeleteTrace w.fs ++ rest) fs2).trace.head? =
         some (Ev.deleteMarker, markerCleared w.fs)) ∧
    ((exceptClean msg (markerDeleteTrace w.fs ++ rest) fs2).ok = false ∧
     ∀ p ∈ (exceptClean msg (markerDeleteTrace w.fs ++ rest) fs2).trace,
       p.1 ∈ [Ev.deleteMarker, Ev.fetchRelease, Ev.download, Ev.deleteBinary, Ev.deleteTmp] ∧
       p.2.marker = none) := by
  constructor
  · intro hm
    rw [exceptClean_trace_head _ _ _ (by simp [markerDeleteTrace_of_isSome _ hm]),
        markerDeleteTrace_of_isSome _ hm]
    simp
  · refine ⟨exceptClean_ok _ _ _, ?_⟩
    intro p hp
    rcases exceptClean_trace_mem _ _ _ _ hp with hp | ⟨he, hmk⟩
    · rcases List.mem_append.mp hp with hp | hp
      · have hpd := mem_markerDeleteTrace _ _ hp
        subst hpd
        exact ⟨by simp, rfl⟩
      · exact hrest p hp
    · refine ⟨?_, by rw [hmk, hfs2]⟩
      rcases he with he | he <;> simp [he]

theorem install_shape (w : World) :
    (w.fs.marker.isSome = true →
       (install_main w).trace.head? = some (Ev.deleteMarker, markerCleared w.fs)) ∧
    (((install_main w).ok = false ∧
        ∀ p ∈ (install_main w).trace,
          p.1 ∈ [Ev.deleteMarker, Ev.fetchRelease, Ev.download, Ev.deleteBinary, Ev.deleteTmp] ∧
          p.2.marker = none) ∨
     ∃ content,
        (install_main w).ok = true ∧
        (install_main w).trace = successTrace w content ∧
        (install_main w).fs =
          ⟨some ⟨content, true⟩, some (w.version ++ "\n"), none⟩) := by
  unfold install_main
  repeat' split
  · obtain ⟨h1, h2⟩ := cleanShape w _ (markerCleared w.fs) [] rfl (by simp)
    exact ⟨by simpa using h1, Or.inl (by simpa using h2)⟩
  · obtain ⟨h1, h2⟩ := cleanShape w _ (markerCleared w.fs) [] rfl (by simp)
    exact ⟨by simpa using h1, Or.inl (by simpa using h2)⟩
  · obtain ⟨h1, h2⟩ := cleanShape w _ (markerCleared w.fs) [] rfl (by simp)
    exact ⟨by simpa using h1, Or.inl (by simpa using h2)⟩
  · obtain ⟨h1, h2⟩ := cleanShape w _ (markerCleared w.fs) [] rfl (by simp)
    exact ⟨by simpa using h1, Or.inl (by simpa using h2)⟩
  · obtain ⟨h1, h2⟩ := cleanShape w _ (markerCleared w.fs)
      [(Ev.fetchRelease, markerCleared w.fs)] rfl (by simp [markerCleared])
    exact ⟨h1, Or.inl h2⟩
  · obtain ⟨h1, h2⟩ := cleanShape w _ (markerCleared w.fs)
      [(Ev.fetchRelease, markerCleared w.fs)] rfl (by simp [markerCleared])
    exact ⟨h1, Or.inl h2⟩
  · obtain ⟨h1, h2⟩ := cleanShape w _ (markerCleared w.fs)
      [(Ev.fetchRelease, markerCleared w.fs), (Ev.download, markerCleared w.fs)]
      rfl (by simp [markerCleared])
    exact ⟨h1, Or.inl h2⟩
  · rename_i content hdl xe msg hv
    obtain ⟨h1, h2⟩ := cleanShape w _ { markerCleared w.fs with tmp := some content }
      [(Ev.fetchRelease, markerCleared w.fs),
       (Ev.download, { markerCleared w.fs with tmp := some content })]
      rfl (by simp [markerCleared])
    exact ⟨h1, Or.inl h2⟩
  · refine ⟨?_, Or.inr ⟨_, rfl, rfl, rfl⟩⟩
    intro hm
    rw [show (markerDeleteTrace w.fs ++
        [(Ev.fetchRelease, markerCleared w.fs),
         (Ev.download, { markerCleared w.fs with tmp := _ }),
         (Ev.verifyOk, { markerCleared w.fs with tmp := _ }),
         (Ev.promote, { markerCleared w.fs with binary := _, tmp := none }),
         (Ev.chmod, { markerCleared w.fs with binary := _, tmp := none }),
         (Ev.writeMarker, _)]).head? = _ from rfl]
    rw [markerDeleteTrace_of_isSome _ hm]
    simp

theorem successTrace_mem (w : World) (c : String) (p : Ev × FS)
    (hp : p ∈ successTrace w c) :
    p = (Ev.deleteMarker, markerCleared w.fs) ∨
    p = (Ev.fetchRelease, markerCleared w.fs) ∨
    p = (Ev.download, { markerCleared w.fs with tmp := some c }) ∨
    p = (Ev.verifyOk, { markerCleared w.fs with tmp := some c }) ∨
    p = (Ev.promote, { markerCleared w.fs with binary := some ⟨c, false⟩, tmp := none }) ∨
    p = (Ev.chmod, { markerCleared w.fs with binary := some ⟨c, true⟩, tmp := none }) ∨
    p = (Ev.writeMarker, ⟨some ⟨c, true⟩, some (w.version ++ "\n"), none⟩) := by
  unfold successTrace at hp
  rcases List.mem_append.mp hp with hp | hp
  · exact Or.inl (mem_markerDeleteTrace _ _ hp)
  · simp at hp
    tauto

theorem successTrace_getLast (w : World) (c : String) :
    (successTrace w c).getLast? =
      some (Ev.writeMarker, ⟨some ⟨c, true⟩, some (w.version ++ "\n"), none⟩) := by
  unfold successTrace
  simp

theorem successTrace_events (w : World) (c : String) :
    Ev.verifyOk ∈ (successTrace w c).map Prod.fst ∧
    Ev.promote ∈ (successTrace w c).map Prod.fst ∧
    Ev.chmod ∈ (successTrace w c).map Prod.fst := by
  unfold successTrace
  simp

theorem install_events (w : World) (p : Ev × FS) (hp : p ∈ (install_main w).trace) :
    p.1 ≠ Ev.installStart ∧ p.1 ≠ Ev.execBinary := by
  rcases (install_shape w).2 with ⟨_, hall⟩ | ⟨c, _, htr, _⟩
  · rcases hall p hp with ⟨he, _⟩
    simp at he
    rcases he with he | he | he | he | he <;> simp [he]
  · rw [htr] at hp
    rcases successTrace_mem w c p hp with hp | hp | hp | hp | hp | hp | hp <;>
      subst hp <;> exact ⟨by simp, by simp⟩

theorem install_installStarts (w : World) :
    installStarts (install_main w).trace = 0 := by
  unfold installStarts
  rw [List.countP_eq_zero]
  intro p hp
  have h1 := (install_events w p hp).1
  rcases p with ⟨e, s⟩
  cases e <;> simp_all

theorem install_trace_getLast_ok (w : World) (h : (install_main w).ok = true) :
    ∃ c, (install_main w).trace.getLast? =
      some (Ev.writeMarker, ⟨some ⟨c, true⟩, some (w.version ++ "\n"), none⟩) := by
  rcases (install_shape w).2 with ⟨hf, _⟩ | ⟨c, _, htr, _⟩
  · rw [h] at hf
    cases hf
  · rw [htr, successTrace_getLast]
    exact ⟨c, rfl⟩

theorem pyStrip_append_newline (v : String) :
    pyStrip (v ++ "\n") = pyStrip v := by
  unfold pyStrip pyStripChars
  have hdata : (v ++ "\n").data = v.data ++ ['\n'] := by
    rw [String.data_append]
  rw [hdata, List.reverse_append]
  have hrev : (['\n'] : List Char).reverse = ['\n'] := rfl
  rw [hrev]
  have hdw : List.dropWhile pyIsSpace ('\n' :: v.data.reverse) =
      List.dropWhile pyIsSpace v.data.reverse := by
    rw [List.dropWhile_cons]
    simp [pyIsSpace]
  rw [List.cons_append]
  have : (('\n' :: v.data.reverse) : List Char) = '\n' :: v.data.reverse := rfl
  simp only [List.nil_append]
  rw [hdw]

theorem lastEntry_cons (line : String) (rest : List String) (k : String) :
    lastEntry (line :: rest) k =
      (match lastEntry rest k with
       | some c => some c
       | none => entryOf line k) := rfl

theorem load_checksums_foldl (lines : List String) (m : String → Option String)
    (k : String) :
    (lines.foldl
      (fun m line =>
        let stripped := pyStrip line
        if stripped ≠ "" then
          match pySplit stripped with
          | checksum :: filename :: _ =>
              fun k => if k = filename then some checksum else m k
          | _ => m
        else m) m) k =
    (match lastEntry lines k with
     | some c => some c
     | none => m k) := by
  induction lines generalizing m with
  | nil => rfl
  | cons line rest ih =>
    rw [List.foldl_cons, ih, lastEntry_cons]
    cases h1 : lastEntry rest k
    · dsimp only
      have hent : entryOf line k =
          (match pySplit (pyStrip line) with
           | checksum :: filename :: _ => if filename = k then some checksum else none
           | _ => none) := rfl
      by_cases hstr : pyStrip line = ""
      · rw [if_neg (not_not_intro hstr)]
        have hsplit : pySplit (pyStrip line) = [] := by
          rw [hstr]
          rfl
        rw [hent, hsplit]
      · rw [if_pos hstr, hent]
        cases h2 : pySplit (pyStrip line) with
        | nil => rfl
        | cons c tail =>
          cases tail with
          | nil => rfl
          | cons f rest2 =>
            dsimp only
            by_cases hk : k = f
            · subst hk
              simp
            · rw [if_neg hk, if_neg (fun h => hk h.symm)]
    · rfl

theorem resolveAsset_eq_lookup (system machine : String) :
    resolveAsset system machine =
      lookupPlatform (system, normalizeMachine system machine) := by
  unfold resolveAsset
  split
  · rename_i h
    exact h.symm
  · rename_i h
    rw [h]
    split_ifs with h1 h2
    · exfalso
      rw [h1.2, h1.1] at h
      exact absurd h (by decide)
    · exfalso
      obtain ⟨hs, hm⟩ := h2
      subst hs
      unfold normalizeMachine at hm
      split_ifs at hm with a b c
      · exact absurd hm (by decide)
      · exact absurd c (by decide)
      · exact absurd hm (by decide)
      · exact b (Or.inr hm)
    · rfl

/-! ## Claim theorems -/

/-- Claim C2: for every (os, arch) pair, platform resolution returns
exactly the `PLATFORM_MAP` entry of the normalized pair (amd64 to
x86_64; arm64/aarch64 to aarch64 on linux and arm64 elsewhere), and
when the normalized pair is outside the table the installer fails with
the unsupported-platform error having made no network call. -/
theorem platform_resolution_correct (w : World) :
    resolveAsset w.system w.machine =
      lookupPlatform (w.system, normalizeMachine w.system w.machine) ∧
    (resolveAsset w.system w.machine = none →
      (install_main w).ok = false ∧
      (install_main w).err =
        some ("Unsupported platform: " ++ w.system ++ "-" ++
          normalizeMachine w.system w.machine) ∧
      netCalls (install_main w).trace = 0) := by
  refine ⟨resolveAsset_eq_lookup _ _, fun h => ?_⟩
  unfold install_main
  simp only [h]
  refine ⟨exceptClean_ok _ _ _, exceptClean_err _ _ _, ?_⟩
  rw [exceptClean_netCalls, markerDeleteTrace_netCalls]

/-- Witness for C2 at the concrete unsupported pair (freebsd, x86_64). -/
theorem platform_resolution_correct_witness :
    resolveAsset wUnsupported.system wUnsupported.machine = none ∧
    ((install_main wUnsupported).ok = false ∧
     (install_main wUnsupported).err =
       some ("Unsupported platform: " ++ wUnsupported.system ++ "-" ++
         normalizeMachine wUnsupported.system wUnsupported.machine) ∧
     netCalls (install_main wUnsupported).trace = 0) :=
  ⟨by decide, (platform_resolution_correct wUnsupported).2 (by decide)⟩

/-- Claim C4: when the manifest has no entry for the resolved asset
name, installation fails and the trace holds no network call (neither
the release-metadata fetch nor the download). -/
theorem missing_manifest_entry_no_network (w : World)
    (asset_name manifest_text : String)
    (hres : resolveAsset w.system w.machine = some asset_name)
    (hman : w.manifest = some manifest_text)
    (hload : load_checksums manifest_text asset_name = none) :
    (install_main w).ok = false ∧ netCalls (install_main w).trace = 0 := by
  unfold install_main
  simp only [hres, hman, hload]
  exact ⟨exceptClean_ok _ _ _, by rw [exceptClean_netCalls, markerDeleteTrace_netCalls]⟩

/-- Witness for C4 at a concrete world whose manifest lists only an
unrelated file. -/
theorem missing_manifest_entry_no_network_witness :
    resolveAsset wNoEntry.system wNoEntry.machine = some "shaper-linux-amd64" ∧
    wNoEntry.manifest = some "deadbeef some-other-file" ∧
    load_checksums "deadbeef some-other-file" "shaper-linux-amd64" = none ∧
    ((install_main wNoEntry).ok = false ∧
     netCalls (install_main wNoEntry).trace = 0) :=
  ⟨by decide, rfl, by decide,
    missing_manifest_entry_no_network wNoEntry "shaper-linux-amd64"
      "deadbeef some-other-file" (by decide) rfl (by decide)⟩

/-- Counterexample to claim C6 as stated: an expected digest that
differs from the actual digest only in letter case is rejected by
`verify_checksum`, because the comparison is plain string inequality
with no case/format normalization. -/
theorem verify_checksum_case_counterexample :
    verify_checksum (fun _ => "ab") "payload" "AB" =
      Except.error
        ("Checksum verification failed for .shaper.tmp\nExpected: AB\nActual:   ab") ∧
    lowerStr "AB" = lowerStr "ab" ∧ ("AB" : String) ≠ "ab" :=
  ⟨rfl, by decide, by decide⟩

/-- Claim C6 amended: `verify_checksum` succeeds exactly when the
computed digest is character-for-character equal to the manifest's
expected digest; no case or format normalization is applied. -/
theorem verify_checksum_exact (sha : String → String)
    (content expected : String) :
    verify_checksum sha content expected = Except.ok () ↔ sha content = expected :=
  verify_checksum_eq_ok sha content expected

/-- Witness for C6 amended: a concrete digest accepted by exact
equality. -/
theorem verify_checksum_exact_witness :
    verify_checksum (fun _ => "deadbeef") "payload" "deadbeef" = Except.ok () :=
  (verify_checksum_exact (fun _ => "deadbeef") "payload" "deadbeef").mpr rfl

/-- Counterexample to claim C7 as stated: after a successful install of
version 1.4.0 the marker file's content is the version string followed
by a newline, not the version string exactly. -/
theorem marker_content_newline_counterexample :
    (install_main wSuccess).ok = true ∧
    (install_main wSuccess).fs.marker = some "1.4.0\n" ∧
    ("1.4.0\n" : String) ≠ "1.4.0" := by decide

/-- Claim C7 amended: after every successful install the marker file's
content is exactly the requested version string followed by a trailing
newline, and the binary at the final path is executable. -/
theorem install_success_marker_and_exec (w : World)
    (hok : (install_main w).ok = true) :
    (install_main w).fs.marker = some (w.version ++ "\n") ∧
    ∃ f, (install_main w).fs.binary = some f ∧ f.executable = true := by
  obtain ⟨c, _, _, _, _, _, hfs⟩ := install_ok_data w hok
  rw [hfs]
  exact ⟨rfl, ⟨⟨c, true⟩, rfl, rfl⟩⟩

/-- Witness for C7 amended at the concrete successful world. -/
theorem install_success_marker_and_exec_witness :
    (install_main wSuccess).fs.marker = some ("1.4.0" ++ "\n") ∧
    ∃ f, (install_main wSuccess).fs.binary = some f ∧ f.executable = true :=
  install_success_marker_and_exec wSuccess (by decide)

/-- Claim C1 (code bug): on a checksum mismatch the install fails and
the temporary file is removed, but the generic failure handler also
deletes the previously installed binary at the final path, so a
previously present binary is not left untouched. -/
theorem checksum_mismatch_deletes_previous_binary :
    wMismatch.fs.binary = some ⟨"OLD-BINARY", true⟩ ∧
    (install_main wMismatch).ok = false ∧
    (install_main wMismatch).fs.tmp = none ∧
    (install_main wMismatch).fs.binary = none := by decide

/-- Claim C10: writing the marker then reading it back round-trips:
for a successful install of a version string carrying no surrounding
whitespace, the launcher's marker read returns exactly that version
(the installer appends a trailing newline; the reader strips it). -/
theorem marker_write_read_roundtrip (w : World)
    (hok : (install_main w).ok = true)
    (hv : pyStrip w.version = w.version) :
    readBinaryVersion (install_main w).fs = some w.version := by
  obtain ⟨c, _, _, _, _, _, hfs⟩ := install_ok_data w hok
  rw [hfs]
  unfold readBinaryVersion
  rw [show Option.map pyStrip (some (w.version ++ "\n")) =
        some (pyStrip (w.version ++ "\n")) from rfl,
      pyStrip_append_newline, hv]

/-- Witness for C10 at the concrete successful world. -/
theorem marker_write_read_roundtrip_witness :
    (install_main wSuccess).ok = true ∧
    pyStrip "1.4.0" = "1.4.0" ∧
    readBinaryVersion (install_main wSuccess).fs = some "1.4.0" :=
  ⟨by decide, by decide, marker_write_read_roundtrip wSuccess (by decide) (by decide)⟩

/-- Counterexample to claim C8 as stated: when two lines carry the same
filename, the parser cannot map the filename to both first tokens; dict
assignment makes the later line win, so the earlier line's pair is not
in the mapping. -/
theorem load_checksums_per_line_counterexample :
    "a f" ∈ splitLines "a f\nb f" ∧
    pySplit (pyStrip "a f") = ["a", "f"] ∧
    load_checksums "a f\nb f" "f" = some "b" ∧
    (some "b" : Option String) ≠ some "a" := by decide

/-- Claim C8 amended: the parser maps each filename to the digest of
the last line with at least two whitespace-separated tokens whose
second token is that filename; blank lines and lines with fewer than
two tokens contribute nothing and cause no error. -/
theorem load_checksums_last_wins (text k : String) :
    load_checksums text k = lastEntry (splitLines text) k := by
  unfold load_checksums
  rw [load_checksums_foldl]
  cases lastEntry (splitLines text) k <;> rfl

/-- Claim C9: the uninstall routine never errors; it removes the binary
when present, removes the `bin` directory exactly when the directory
exists and is left empty, and leaves a non-empty directory in place
with only the binary removed. -/
theorem uninstall_spec (s : Option BinDir) :
    ∃ s', uninstall s = Except.ok s' ∧
      binaryExists s' = false ∧
      (s' = none ↔ s = none ∨ ∃ d, s = some d ∧ d.others = 0) ∧
      (∀ d, s = some d → d.others ≠ 0 → s' = some ⟨false, d.others⟩) := by
  rcases s with _ | ⟨hb, n⟩
  · exact ⟨none, rfl, rfl, by simp, by simp⟩
  · by_cases hn : n = 0
    · subst hn
      cases hb
      · exact ⟨none, rfl, rfl, by simp, by simp⟩
      · exact ⟨none, rfl, rfl, by simp, by simp⟩
    · cases hb
      · refine ⟨some ⟨false, n⟩, ?_, rfl, by simp [hn], by simp⟩
        unfold uninstall binaryExists binDirExists binDirEmpty
        simp [hn]
      · refine ⟨some ⟨false, n⟩, ?_, rfl, by simp [hn], by simp⟩
        unfold uninstall binaryExists unlinkBinary binDirExists binDirEmpty
        simp [hn]

/-- Witness for C9 at a directory holding the binary plus two other
entries. -/
theorem uninstall_spec_witness :
    ∃ s', uninstall (some ⟨true, 2⟩) = Except.ok s' ∧
      binaryExists s' = false ∧
      (s' = none ↔ (some ⟨true, 2⟩ : Option BinDir) = none ∨
        ∃ d, (some ⟨true, 2⟩ : Option BinDir) = some d ∧ d.others = 0) ∧
      (∀ d, (some ⟨true, 2⟩ : Option BinDir) = some d → d.others ≠ 0 →
        s' = some ⟨false, d.others⟩) :=
  uninstall_spec (some ⟨true, 2⟩)

/-- Claim C3: the launcher runs the installer exactly when the binary
is not usable (usable = binary present and stripped marker equal to the
expected version): when usable the trace is a direct exec with zero
network calls; otherwise exactly one install cycle precedes execution. -/
theorem launcher_install_iff_not_usable (w : World) :
    ((w.fs.binary.isSome = true ∧ readBinaryVersion w.fs = some w.version) →
       (cli_main w).trace = [(Ev.execBinary, w.fs)] ∧
       netCalls (cli_main w).trace = 0 ∧ (cli_main w).ok = true) ∧
    (¬(w.fs.binary.isSome = true ∧ readBinaryVersion w.fs = some w.version) →
       installStarts (cli_main w).trace = 1 ∧
       ((cli_main w).ok = true →
         (cli_main w).trace.getLast? = some (Ev.execBinary, (install_main w).fs))) := by
  constructor
  · intro h
    have hnd : needs_download w = false := by
      unfold needs_download
      simp [h.1, h.2]
    unfold cli_main
    rw [hnd]
    refine ⟨rfl, ?_, rfl⟩
    unfold netCalls
    simp
  · intro h
    have hnd : needs_download w = true := by
      unfold needs_download
      by_cases hb : w.fs.binary.isSome = true
      · by_cases hv : readBinaryVersion w.fs = some w.version
        · exact absurd ⟨hb, hv⟩ h
        · simp [hv]
      · simp [Bool.not_eq_true w.fs.binary.isSome ▸ hb]
    have h0 := install_installStarts w
    unfold cli_main
    rw [hnd, if_pos rfl]
    split
    · constructor
      · unfold installStarts at h0 ⊢
        dsimp only
        rw [List.countP_append, List.countP_cons, h0]
        simp
      · intro _
        dsimp only
        rw [List.getLast?_append]
        rfl
    · constructor
      · unfold installStarts at h0 ⊢
        dsimp only
        rw [List.countP_cons, h0]
        simp
      · intro hfalse
        dsimp only at hfalse
        cases hfalse

/-- Witness for C3: direct exec at a usable world, and exactly one
install cycle at a world with a stale marker. -/
theorem launcher_install_iff_not_usable_witness :
    ((wUsable.fs.binary.isSome = true ∧
        readBinaryVersion wUsable.fs = some wUsable.version) ∧
     (cli_main wUsable).trace = [(Ev.execBinary, wUsable.fs)]) ∧
    (¬(wSuccess.fs.binary.isSome = true ∧
        readBinaryVersion wSuccess.fs = some wSuccess.version) ∧
     installStarts (cli_main wSuccess).trace = 1) :=
  ⟨⟨⟨by decide, by decide⟩,
    ((launcher_install_iff_not_usable wUsable).1 ⟨by decide, by decide⟩).1⟩,
   ⟨by decide,
    ((launcher_install_iff_not_usable wSuccess).2 (by decide)).1⟩⟩

/-- Claim C5: in every install run an existing marker is deleted first
(before any network call, whose states all have no marker); a marker is
written only as the final event of a successful run, after
verification, promotion and chmod; and whenever a trace state has a
marker present, the binary at the final path is exactly the verified
download (its digest equals the manifest entry). -/
theorem install_marker_lifecycle (w : World) :
    (w.fs.marker.isSome = true →
       (install_main w).trace.head? = some (Ev.deleteMarker, markerCleared w.fs)) ∧
    (∀ p ∈ (install_main w).trace,
       (p.1 = Ev.fetchRelease ∨ p.1 = Ev.download) → p.2.marker = none) ∧
    (∀ p ∈ (install_main w).trace, p.1 = Ev.writeMarker →
       (install_main w).ok = true ∧
       (install_main w).trace.getLast? = some p ∧
       Ev.verifyOk ∈ (install_main w).trace.map Prod.fst ∧
       Ev.promote ∈ (install_main w).trace.map Prod.fst ∧
       Ev.chmod ∈ (install_main w).trace.map Prod.fst) ∧
    (∀ p ∈ (install_main w).trace, p.2.marker.isSome = true →
       ∃ content asset_name manifest_text,
         p.2.binary = some ⟨content, true⟩ ∧
         resolveAsset w.system w.machine = some asset_name ∧
         w.manifest = some manifest_text ∧
         load_checksums manifest_text asset_name = some (w.sha256 content)) := by
  refine ⟨(install_shape w).1, ?_, ?_, ?_⟩
  · intro p hp hnet
    rcases (install_shape w).2 with ⟨_, hall⟩ | ⟨c, hok, htr, _⟩
    · exact (hall p hp).2
    · rw [htr] at hp
      rcases successTrace_mem w c p hp with rfl | rfl | rfl | rfl | rfl | rfl | rfl
      · rfl
      · rfl
      · rfl
      · rfl
      · rfl
      · rfl
      · rcases hnet with hne | hne <;> exact Ev.noConfusion hne
  · intro p hp hw
    rcases (install_shape w).2 with ⟨_, hall⟩ | ⟨c, hok, htr, _⟩
    · have hin := (hall p hp).1
      rw [hw] at hin
      simp at hin
    · refine ⟨hok, ?_, ?_, ?_, ?_⟩
      · rw [htr, successTrace_getLast]
        rw [htr] at hp
        rcases successTrace_mem w c p hp with rfl | rfl | rfl | rfl | rfl | rfl | rfl <;>
          first
            | exact Ev.noConfusion hw
            | rfl
      · rw [htr]
        exact (successTrace_events w c).1
      · rw [htr]
        exact (successTrace_events w c).2.1
      · rw [htr]
        exact (successTrace_events w c).2.2
  · intro p hp hm
    rcases (install_shape w).2 with ⟨_, hall⟩ | ⟨c, hok, htr, hfs⟩
    · rw [(hall p hp).2] at hm
      cases hm
    · obtain ⟨c2, an, mt, hres, hman, hload, hfs2⟩ := install_ok_data w hok
      rw [hfs] at hfs2
      have hcc : c = c2 := by
        simpa using hfs2
      subst hcc
      rw [htr] at hp
      rcases successTrace_mem w c p hp with rfl | rfl | rfl | rfl | rfl | rfl | rfl
      · cases hm
      · cases hm
      · cases hm
      · cases hm
      · cases hm
      · cases hm
      · exact ⟨c, an, mt, rfl, hres, hman, hload⟩

/-- Witness for C5 at the concrete successful world: the first event
deletes the stale marker, a network event's state has no marker, and
the marker write is the final event after verify/promote/chmod. -/
theorem install_marker_lifecycle_witness :
    (install_main wSuccess).trace.head? =
      some (Ev.deleteMarker, markerCleared wSuccess.fs) ∧
    ((Ev.fetchRelease, markerCleared wSuccess.fs) ∈ (install_main wSuccess).trace ∧
     (markerCleared wSuccess.fs).marker = none) ∧
    ((install_main wSuccess).ok = true ∧
     (install_main wSuccess).trace.getLast? =
       some (Ev.writeMarker,
         ⟨some ⟨"GOOD-BYTES", true⟩, some ("1.4.0" ++ "\n"), none⟩) ∧
     Ev.verifyOk ∈ (install_main wSuccess).trace.map Prod.fst ∧
     Ev.promote ∈ (install_main wSuccess).trace.map Prod.fst ∧
     Ev.chmod ∈ (install_main wSuccess).trace.map Prod.fst) :=
  ⟨(install_marker_lifecycle wSuccess).1 (by decide),
   ⟨by decide,
    (install_marker_lifecycle wSuccess).2.1
      (Ev.fetchRelease, markerCleared wSuccess.fs) (by decide) (Or.inl rfl)⟩,
   (install_marker_lifecycle wSuccess).2.2.1
     (Ev.writeMarker, ⟨some ⟨"GOOD-BYTES", true⟩, some ("1.4.0" ++ "\n"), none⟩)
     (by decide) rfl⟩
